import Mathlib

/-!
Verification development for the EnsembleTabPFN estimator
(src/ensemble_tabpfn/ensemble_tabpfn.py).

The estimator is shallowly embedded: its configuration, the early-stopping
fit loop of `_generate_ensembles`, the `fit` wrapper, and the predict path
are translated into pure Lean definitions.  External collaborators
(train_test_split, the TabPFN classifier, the samplers) appear as oracle
parameters; scores and tolerances are modelled over the rationals.

The helper modules `samplers.py` and `utils.py` are not part of the source
tree under verification; where a claim depends on them (the global caps,
the `Result.aggregate` accumulator, the Ensemble record, the row sampler
contract) the definition is modelled from the spec and documented as such.

Python dynamic failures that the source text makes certain are modelled
explicitly as `PyError` values: `_generate_ensembles` passes a
`random_state` keyword to `_data_subsample`, which accepts none, so the
first loop iteration raises `TypeError`; `predict`/`predict_proba` call
`self._predict(X)` although `_predict` requires a further positional
`model` argument; `_predict` itself reads `self.n_ensemble_configurations`,
an attribute `__init__` never assigns.
-/

namespace EnsembleTabPFN

/-- Python exception values that the embedded code can raise. -/
inductive PyError where
  | typeError (msg : String)
  | valueError (msg : String)
  | attributeError (msg : String)
  | notFittedError (msg : String)
  deriving DecidableEq, Repr

/-- Recognizes the not-fitted condition (sklearn NotFittedError). -/
def PyError.isNotFitted : PyError → Bool
  | .notFittedError _ => true
  | _ => false

/-- Modelled from the spec: `utils.py` (TabPFNConstants) is not in the source
tree; the spec fixes the global row cap at 1000. -/
def MAX_INP_SIZE : ℤ := 1000

/-- Modelled from the spec: `utils.py` (TabPFNConstants) is not in the source
tree; the spec fixes the global feature cap at 100. -/
def MAX_FEAT_SIZE : ℤ := 100

/-- Modelled from the spec: a feature partitioning is an ordered sequence of
column-index groups (spec section 3, Feature Partitioning); the concrete
`FeatureSampler` lives in the missing `samplers.py`. -/
structure FeatPartition where
  groups : List (List ℕ)
  deriving DecidableEq, Repr

/-- Modelled from the spec: the Ensemble record of `utils.py` (not in the
source tree) holds the row index multiset and the feature partitioning of
one retained iteration, exactly as `_generate_ensembles` constructs it via
`Ensemble(data_indices=indices, feat_samplers=...)`. -/
structure Ensemble where
  data_indices : List ℕ
  feat_samplers : FeatPartition
  deriving DecidableEq, Repr

/-- The configuration stored on `self` by `__init__` (source lines 19-84),
after the cap checks have passed.  The `data_sampler` / classifier objects
are external collaborators and are not part of the record. -/
structure Config where
  max_iters : ℕ
  n_samples : ℤ
  n_features : ℤ
  random_state : Option ℤ
  early_stopping_rounds : ℕ
  tolerance : ℚ
  deriving DecidableEq, Repr

/-- Embedding of `EnsembleTabPFN.__init__` (source lines 19-84): the two cap
checks on `n_samples` and `n_features` run first and raise `ValueError` when
a cap is exceeded; otherwise the values are stored unchanged on the
configuration.  Construction sees no data. -/
def init (max_iters : ℕ) (n_samples n_features : ℤ)
    (random_state : Option ℤ) (early_stopping_rounds : ℕ)
    (tolerance : ℚ) : Except PyError Config :=
  if ¬ (n_samples ≤ MAX_INP_SIZE) then
    .error (.valueError "n_samples must be less than or equal to 1000")
  else if ¬ (n_features ≤ MAX_FEAT_SIZE) then
    .error (.valueError "n_features must be less than or equal to 100")
  else
    .ok ⟨max_iters, n_samples, n_features, random_state,
         early_stopping_rounds, tolerance⟩

/-- The running state of the fit loop in `_generate_ensembles` (source
lines 107-141): the member list `self.ensembles_` being appended to, the
running `best_loss` (`none` models the initial `np.inf`), and the
`no_improvement` counter. -/
structure GenState where
  ensembles : List Ensemble
  best_loss : Option ℚ
  no_improvement : ℕ
  deriving DecidableEq, Repr

/-- Embedding of the per-feature-group update of `_generate_ensembles`
(source lines 128-135): after the classifier scores one feature group as
`loss`, the code tests `loss < best_loss - self.tolerance`; on success it
sets `best_loss = loss` and resets `no_improvement` to 0, otherwise it
increments `no_improvement`.  With the initial `best_loss = np.inf`
(modelled as `none`) the comparison always succeeds. -/
def groupStep (tol : ℚ) (st : GenState) (loss : ℚ) : GenState :=
  match st.best_loss with
  | none => { st with best_loss := some loss, no_improvement := 0 }
  | some b =>
    if loss < b - tol then
      { st with best_loss := some loss, no_improvement := 0 }
    else
      { st with no_improvement := st.no_improvement + 1 }

/-- Embedding of one completed iteration body of `_generate_ensembles`
(source lines 121-141, after the row subsample has produced `indices` and
the feature sampler the partitioning `fs`): the inner `for` loop folds
`groupStep` over the validation scores of this iteration's feature groups,
and then — unconditionally, outside the improvement branch — one
`Ensemble(data_indices=indices, feat_samplers=...)` is appended to
`self.ensembles_`. -/
def epochBody (tol : ℚ) (scores : List ℚ) (ind : List ℕ)
    (fs : FeatPartition) (st : GenState) : GenState :=
  let st1 := scores.foldl (groupStep tol) st
  { st1 with ensembles := st1.ensembles ++ [⟨ind, fs⟩] }

/-- Embedding of the `for epoch in range(self.max_iters)` loop of
`_generate_ensembles` (source lines 117-141), parameterized by the row
subsample step and by the validation scores the classifier produces per
epoch.  Returns the final state, the number of completed iterations, and
the Python exception, if one aborted the loop.  A raised exception keeps
the members already appended to `self.ensembles_` (Python mutations are
not rolled back).  After the unconditional append, the loop breaks once
`no_improvement >= self.early_stopping_rounds`. -/
def genLoop (tol : ℚ) (rounds : ℕ)
    (subsample : ℕ → Except PyError (List ℕ × FeatPartition))
    (scoresOf : ℕ → List ℚ) :
    ℕ → ℕ → GenState → GenState × ℕ × Option PyError
  | 0, _, st => (st, 0, none)
  | fuel + 1, e, st =>
    match subsample e with
    | .error err => (st, 0, some err)
    | .ok (ind, fs) =>
      let st2 := epochBody tol (scoresOf e) ind fs st
      if rounds ≤ st2.no_improvement then (st2, 1, none)
      else
        let r := genLoop tol rounds subsample scoresOf fuel (e + 1) st2
        (r.1, r.2.1 + 1, r.2.2)

/-- Embedding of the call on source lines 118-120:
`self._data_subsample(X_train, y_train, random_state=self.random_state)`.
The method `_data_subsample` (source lines 86-92) is declared with
parameters `(self, X, y)` only, so binding the keyword argument
`random_state` fails and Python raises `TypeError` before the sampler is
ever consulted. -/
def dataSubsampleCall (_e : ℕ) : Except PyError (List ℕ × FeatPartition) :=
  .error (.typeError
    "data_subsample got an unexpected keyword argument random_state")

/-- Embedding of `_generate_ensembles` (source lines 107-141): the loop run
with the actual (keyword-mismatched) subsample call, started from the
state `fit` hands it — freshly reset member list, `best_loss = np.inf`,
`no_improvement = 0`.  The train/validation split and the classifier are
external; the per-epoch validation scores stay an oracle parameter. -/
def generateEnsembles (cfg : Config) (scoresOf : ℕ → List ℚ) :
    GenState × ℕ × Option PyError :=
  genLoop cfg.tolerance cfg.early_stopping_rounds dataSubsampleCall scoresOf
    cfg.max_iters 0 ⟨[], none, 0⟩

/-- The estimator attribute state relevant to fit/predict: `ensembles_` is
`none` before the first call to `fit` (the attribute does not exist) and
`some l` afterwards. -/
structure EstState where
  ensembles_ : Option (List Ensemble)
  deriving DecidableEq, Repr

/-- Embedding of `EnsembleTabPFN.fit` (source lines 143-155) on inputs that
passed the external `check_X_y` validation, parameterized like `genLoop`
over the row subsample step and the score oracle: `fit` sets
`self.ensembles_ = []` and then runs `_generate_ensembles`, which appends
to that fresh list.  The post-state and the raised exception, if any, are
returned; the prior state `st` is overwritten. -/
def fitWith (cfg : Config)
    (subsample : ℕ → Except PyError (List ℕ × FeatPartition))
    (scoresOf : ℕ → List ℚ) (_st : EstState) : EstState × Option PyError :=
  let r := genLoop cfg.tolerance cfg.early_stopping_rounds subsample scoresOf
    cfg.max_iters 0 ⟨[], none, 0⟩
  (⟨some r.1.ensembles⟩, r.2.2)

/-- Embedding of `fit` with the source's actual subsample call (the keyword
mismatch of `dataSubsampleCall` included). -/
def fit (cfg : Config) (scoresOf : ℕ → List ℚ) (st : EstState) :
    EstState × Option PyError :=
  fitWith cfg dataSubsampleCall scoresOf st

/-- The shape of a probability array modelled as a list of rows: the row
count together with the length of every row.  Two arrays agree on shape iff
these data coincide. -/
def matShape (m : List (List ℚ)) : ℕ × List ℕ :=
  (m.length, m.map List.length)

/-- Element-wise sum of two probability arrays of equal shape. -/
def addMat (a b : List (List ℚ)) : List (List ℚ) :=
  List.zipWith (List.zipWith (· + ·)) a b

/-- Element-wise scaling of a probability array. -/
def scaleMat (q : ℚ) (m : List (List ℚ)) : List (List ℚ) :=
  m.map (fun row => row.map (fun x => q * x))

/-- Modelled from the spec: `utils.py` (Result) is not in the source tree.
`aggregate()` on the collected probability arrays takes the element-wise
mean across all arrays, which must share an identical shape (same row
count and class count); on a shape mismatch it fails with a shape-mismatch
condition. -/
def aggregate (arrays : List (List (List ℚ))) :
    Except PyError (List (List ℚ)) :=
  match arrays with
  | [] => .error (.valueError "no probability arrays collected")
  | a :: rest =>
    if rest.all (fun b => decide (matShape b = matShape a)) then
      .ok (scaleMat (1 / ((rest.length + 1 : ℕ) : ℚ)) (rest.foldl addMat a))
    else
      .error (.valueError "probability arrays have mismatched shapes")

/-- A probability array is row-stochastic when every row sums to 1. -/
def rowStochastic (m : List (List ℚ)) : Prop :=
  ∀ row ∈ m, row.sum = 1

/-- Modelled from the spec: the Result accumulator of `utils.py` (not in
the source tree) owns the raw per-(member, group) probability arrays of
one predict call. -/
structure Result where
  raw_preds : List (List (List ℚ))
  deriving DecidableEq, Repr

/-- Aggregation entry point of the Result accumulator. -/
def Result.aggregateRaw (r : Result) : Except PyError (List (List ℚ)) :=
  aggregate r.raw_preds

/-- Embedding of the body of `EnsembleTabPFN._predict` (source lines
165-184), as it would run if invoked with both of its required arguments.
Its first statement builds `TabPFNClassifier(device=DEVICE,
N_ensemble_configurations=self.n_ensemble_configurations)`, but `__init__`
never assigns `self.n_ensemble_configurations` (it stores that knob only
inside the classifier object it constructs), so attribute lookup raises
`AttributeError` before the `check_is_fitted` guard on source line 170 is
reached, and before the member loop — whose own header,
`for itr in self.max_iters`, would raise `TypeError` by iterating over an
int instead of the retained member list.  No classifier `fit`, `predict`
or `predict_proba` call is ever issued, and no retained Ensemble Member is
ever visited. -/
def privPredict (_cfg : Config) (_st : EstState) : Except PyError Result :=
  .error (.attributeError
    "EnsembleTabPFN object has no attribute n_ensemble_configurations")

/-- Embedding of the sklearn guard `check_is_fitted(self,
attributes="ensembles_")` on source line 170: raises the not-fitted
condition when the `ensembles_` attribute does not exist.  In the source
this line is unreachable, dead code behind the attribute error modelled in
`privPredict`. -/
def checkIsFitted (st : EstState) : Except PyError Unit :=
  match st.ensembles_ with
  | none => .error (.notFittedError
      "this EnsembleTabPFN instance is not fitted yet")
  | some _ => .ok ()

/-- Embedding of `EnsembleTabPFN.predict` (source lines 186-207): it
evaluates `self._predict(X)`, but `_predict` (source line 165) declares a
second required positional parameter `model`, so Python raises `TypeError`
at the call itself, before the body of `_predict` — including its
`check_is_fitted` guard — can run.  No classifier call is performed. -/
def predict (_cfg : Config) (_st : EstState) : Except PyError (List ℚ) :=
  .error (.typeError
    "private predict missing 1 required positional argument: model")

/-- Embedding of `EnsembleTabPFN.predict_proba` (source lines 209-230): it
evaluates the same `self._predict(X)` call as `predict` and fails the same
way. -/
def predict_proba (_cfg : Config) (_st : EstState) :
    Except PyError (List (List ℚ)) :=
  .error (.typeError
    "private predict missing 1 required positional argument: model")

end EnsembleTabPFN

open EnsembleTabPFN

/-- Folding the per-group score update over any score list never touches the
member list: only the counter and the running best change. -/
lemma foldl_groupStep_ensembles (tol : ℚ) :
    ∀ (scores : List ℚ) (st : GenState),
      (scores.foldl (groupStep tol) st).ensembles = st.ensembles := by
  intro scores
  induction scores with
  | nil => intro st; rfl
  | cons s rest ih =>
    intro st
    rw [List.foldl_cons, ih]
    unfold groupStep
    cases st.best_loss with
    | none => rfl
    | some b => dsimp only; split <;> rfl

/-- One iteration body appends exactly the member built from this
iteration's row indices and feature partitioning, whatever the scores. -/
lemma epochBody_ensembles (tol : ℚ) (scores : List ℚ) (ind : List ℕ)
    (fs : FeatPartition) (st : GenState) :
    (epochBody tol scores ind fs st).ensembles =
      st.ensembles ++ [⟨ind, fs⟩] := by
  unfold epochBody
  dsimp only
  rw [foldl_groupStep_ensembles]

/-- Across every path of the loop — normal break, budget exhaustion, or a
raised exception — the member list grows by exactly the number of completed
iterations. -/
lemma genLoop_length (tol : ℚ) (rounds : ℕ)
    (subsample : ℕ → Except PyError (List ℕ × FeatPartition))
    (scoresOf : ℕ → List ℚ) :
    ∀ (fuel e : ℕ) (st : GenState),
      (genLoop tol rounds subsample scoresOf fuel e st).1.ensembles.length =
        st.ensembles.length +
          (genLoop tol rounds subsample scoresOf fuel e st).2.1 := by
  intro fuel
  induction fuel with
  | zero => intro e st; rfl
  | succ n ih =>
    intro e st
    unfold genLoop
    cases h : subsample e with
    | error err => rfl
    | ok p =>
      dsimp only
      split
      · rw [epochBody_ensembles]; simp
      · rw [ih (e + 1) (epochBody tol (scoresOf e) p.1 p.2 st),
            epochBody_ensembles]
        simp
        omega

/-- C6: constructing the estimator with `n_samples` above the global cap of
1000, or `n_features` above the global cap of 100, fails at construction
time with a configuration error; for all values within both caps the
constructor raises no configuration error and stores the values unclamped. -/
theorem c6_cap_checks (mi : ℕ) (ns nf : ℤ) (rs : Option ℤ) (esr : ℕ) (tol : ℚ) :
    ((MAX_INP_SIZE < ns ∨ MAX_FEAT_SIZE < nf) →
      ∃ msg, init mi ns nf rs esr tol = .error (.valueError msg)) ∧
    (ns ≤ MAX_INP_SIZE → nf ≤ MAX_FEAT_SIZE →
      ∃ c : Config, init mi ns nf rs esr tol = .ok c ∧
        c.n_samples = ns ∧ c.n_features = nf) := by
  constructor
  · rintro (h | h)
    · exact ⟨"n_samples must be less than or equal to 1000", by
        simp [init, not_le.mpr h]⟩
    · rcases le_or_lt ns MAX_INP_SIZE with hns | hns
      · exact ⟨"n_features must be less than or equal to 100", by
          simp [init, hns, not_le.mpr h]⟩
      · exact ⟨"n_samples must be less than or equal to 1000", by
          simp [init, not_le.mpr hns]⟩
  · intro hns hnf
    exact ⟨⟨mi, ns, nf, rs, esr, tol⟩, by simp [init, hns, hnf], rfl, rfl⟩

/-- Witness for C6 at concrete inputs: n_samples = 1500 exceeds the cap and
construction fails; n_samples = 1000, n_features = 100 is within the caps
and construction succeeds. -/
theorem c6_cap_checks_witness :
    (∃ msg, init 100 1500 100 none 5 (1/10000) = .error (.valueError msg)) ∧
    (∃ c : Config, init 100 1000 100 none 5 (1/10000) = .ok c ∧
      c.n_samples = 1000 ∧ c.n_features = 100) :=
  ⟨(c6_cap_checks 100 1500 100 none 5 (1/10000)).1 (Or.inl (by decide)),
   (c6_cap_checks 100 1000 100 none 5 (1/10000)).2 (by decide) (by decide)⟩

/-- C10: the constructor validates only the upper bounds: every
`n_samples ≤ 1000` and `n_features ≤ 100`, including zero and negative
values, passes both cap checks and raises no configuration error. -/
theorem c10_only_upper_bounds (mi : ℕ) (ns nf : ℤ) (rs : Option ℤ)
    (esr : ℕ) (tol : ℚ) (hns : ns ≤ 1000) (hnf : nf ≤ 100) :
    init mi ns nf rs esr tol =
      .ok ⟨mi, ns, nf, rs, esr, tol⟩ := by
  simp [init, MAX_INP_SIZE, MAX_FEAT_SIZE, hns, hnf]

/-- Witness for C10 at a concrete negative and zero input: the constructor
accepts n_samples = -5 and n_features = 0. -/
theorem c10_only_upper_bounds_witness :
    init 100 (-5) 0 none 5 (1/10000) =
      .ok ⟨100, -5, 0, none, 5, 1/10000⟩ :=
  c10_only_upper_bounds 100 (-5) 0 none 5 (1/10000) (by decide) (by decide)

/-- C7: per evaluated feature group, if the score is an improvement on the
running best by more than the tolerance (in the lower-is-better convention
the source applies, the improvement `b - loss` exceeds `tol`; against the
initial infinite best, every score improves), the no-improvement counter is
reset to zero and the best score is updated to this score; otherwise the
counter is incremented by one and the best is kept. -/
theorem c7_no_improvement_counter (tol loss : ℚ) (st : GenState) :
    (st.best_loss = none →
      (groupStep tol st loss).no_improvement = 0 ∧
        (groupStep tol st loss).best_loss = some loss) ∧
    ∀ b, st.best_loss = some b →
      (tol < b - loss →
        (groupStep tol st loss).no_improvement = 0 ∧
          (groupStep tol st loss).best_loss = some loss) ∧
      (¬ tol < b - loss →
        (groupStep tol st loss).no_improvement = st.no_improvement + 1 ∧
          (groupStep tol st loss).best_loss = st.best_loss) := by
  constructor
  · intro h
    unfold groupStep
    rw [h]
    exact ⟨rfl, rfl⟩
  · intro b hb
    constructor
    · intro himp
      have hlt : loss < b - tol := by linarith
      unfold groupStep
      rw [hb]
      dsimp only
      rw [if_pos hlt]
      exact ⟨rfl, rfl⟩
    · intro hnimp
      have hnlt : ¬ loss < b - tol := by
        intro hc; exact hnimp (by linarith)
      unfold groupStep
      rw [hb]
      dsimp only
      rw [if_neg hnlt]
      exact ⟨rfl, rfl⟩

/-- Witness for C7 at concrete states: with tolerance 0 and best 1, the
score 1/2 improves (counter resets to 0, best becomes 1/2) and the score 1
does not (counter goes from 3 to 4, best stays 1). -/
theorem c7_no_improvement_counter_witness :
    ((groupStep 0 ⟨[], some 1, 3⟩ (1/2)).no_improvement = 0 ∧
      (groupStep 0 ⟨[], some 1, 3⟩ (1/2)).best_loss = some (1/2)) ∧
    ((groupStep 0 ⟨[], some 1, 3⟩ 1).no_improvement = 3 + 1 ∧
      (groupStep 0 ⟨[], some 1, 3⟩ 1).best_loss = some 1) :=
  ⟨((c7_no_improvement_counter 0 (1/2) ⟨[], some 1, 3⟩).2 1 rfl).1
      (by norm_num),
   ((c7_no_improvement_counter 0 1 ⟨[], some 1, 3⟩).2 1 rfl).2
      (by norm_num)⟩

/-- C2: every completed iteration of the fit loop appends exactly one
Ensemble Member — the one built from this iteration's row index set and
feature partitioning — to the retained list, independently of the
iteration's scores (retention is unconditional); consequently, on every
run of the loop the retained-member count grows by exactly the number of
completed iterations, so after `fit` (which starts from the empty list) the
member count equals the iteration count. -/
theorem c2_unconditional_retention (tol : ℚ) (rounds : ℕ)
    (subsample : ℕ → Except PyError (List ℕ × FeatPartition))
    (scoresOf : ℕ → List ℚ) (scores : List ℚ) (ind : List ℕ)
    (fs : FeatPartition) (st : GenState) (fuel e : ℕ) :
    (epochBody tol scores ind fs st).ensembles =
        st.ensembles ++ [⟨ind, fs⟩] ∧
      (genLoop tol rounds subsample scoresOf fuel e st).1.ensembles.length =
        st.ensembles.length +
          (genLoop tol rounds subsample scoresOf fuel e st).2.1 :=
  ⟨epochBody_ensembles tol scores ind fs st,
   genLoop_length tol rounds subsample scoresOf fuel e st⟩

/-- C1: the fit loop cannot stop after `early_stopping_rounds + 1`
iterations, because its first iteration already raises `TypeError`: the
call on source lines 118-120 passes the keyword argument `random_state`
to `_data_subsample`, which accepts only `(X, y)`.  With the default
configuration (`max_iters = 100`, `early_stopping_rounds = 5`) and
`tolerance = 0`, `_generate_ensembles` completes 0 iterations — not the
6 the claim requires — and surfaces the `TypeError`. -/
theorem c1_first_iteration_type_error :
    generateEnsembles ⟨100, 1000, 100, none, 5, 0⟩ (fun _ => []) =
      (⟨[], none, 0⟩, 0, some (.typeError
        "data_subsample got an unexpected keyword argument random_state")) ∧
    (⟨100, 1000, 100, none, 5, 0⟩ : Config).early_stopping_rounds + 1 = 6 :=
  ⟨rfl, rfl⟩

/-- C3: fit is deterministic: with the same configuration, the same
(seed-determined) row subsample function and the same classifier scores,
the retained Ensemble Member sequence after `fit` is the same regardless of
the prior estimator state, and running `fit` a second time on the state the
first call produced yields the identical member sequence. -/
theorem c3_fit_deterministic (cfg : Config)
    (subsample : ℕ → Except PyError (List ℕ × FeatPartition))
    (scoresOf : ℕ → List ℚ) (s₁ s₂ : EstState) :
    (fitWith cfg subsample scoresOf s₁).1.ensembles_ =
        (fitWith cfg subsample scoresOf s₂).1.ensembles_ ∧
      (fitWith cfg subsample scoresOf
          (fitWith cfg subsample scoresOf s₁).1).1.ensembles_ =
        (fitWith cfg subsample scoresOf s₁).1.ensembles_ :=
  ⟨rfl, rfl⟩

/-- C9: every call to `fit` overwrites `self.ensembles_` with a fresh empty
list before generating members, so the post-fit result is identical for
any two prior estimator states — earlier members are discarded, never
accumulated — and the retained list is exactly what the generation loop
builds starting from the empty member list. -/
theorem c9_fit_resets_members (cfg : Config) (scoresOf : ℕ → List ℚ)
    (s₁ s₂ : EstState) :
    fit cfg scoresOf s₁ = fit cfg scoresOf s₂ ∧
      (fit cfg scoresOf s₁).1.ensembles_ =
        some (genLoop cfg.tolerance cfg.early_stopping_rounds
          dataSubsampleCall scoresOf cfg.max_iters 0 ⟨[], none, 0⟩).1.ensembles :=
  ⟨rfl, rfl⟩

/-- Summing two rows of equal length pointwise adds their sums. -/
lemma sum_zipWith_add :
    ∀ ra rb : List ℚ, ra.length = rb.length →
      (List.zipWith (· + ·) ra rb).sum = ra.sum + rb.sum := by
  intro ra
  induction ra with
  | nil =>
    intro rb h
    cases rb with
    | nil => simp
    | cons y ys => simp at h
  | cons x xs ih =>
    intro rb h
    cases rb with
    | nil => simp at h
    | cons y ys =>
      simp only [List.zipWith_cons_cons, List.sum_cons,
        ih ys (by simpa using h)]
      ring

/-- Scaling a row scales its sum. -/
lemma sum_map_mul (q : ℚ) :
    ∀ l : List ℚ, (l.map (fun x => q * x)).sum = q * l.sum := by
  intro l
  induction l with
  | nil => simp
  | cons x xs ih => simp [ih]; ring

/-- A row-stochastic array has row-sum list constantly 1. -/
lemma rowStochastic_sums {m : List (List ℚ)} (h : rowStochastic m) :
    m.map List.sum = List.replicate m.length 1 := by
  induction m with
  | nil => rfl
  | cons r rs ih =>
    simp only [List.map_cons, List.length_cons, List.replicate_succ]
    exact List.cons_eq_cons.2
      ⟨h r (List.mem_cons_self r rs),
       ih (fun row hrow => h row (List.mem_cons_of_mem r hrow))⟩

/-- Pointwise addition of two constant lists is constant. -/
lemma zipWith_add_replicate (s t : ℚ) :
    ∀ n : ℕ, List.zipWith (· + ·) (List.replicate n s) (List.replicate n t) =
      List.replicate n (s + t) := by
  intro n
  induction n with
  | zero => rfl
  | succ k ih => simp [List.replicate_succ, ih]

/-- Element-wise summation of two arrays of the same shape preserves the
shape. -/
lemma matShape_addMat :
    ∀ a b : List (List ℚ), matShape b = matShape a →
      matShape (addMat a b) = matShape a := by
  intro a
  induction a with
  | nil =>
    intro b h
    cases b with
    | nil => rfl
    | cons s ss => simp [matShape] at h
  | cons r rs ih =>
    intro b h
    cases b with
    | nil => simp [matShape] at h
    | cons s ss =>
      simp only [matShape, List.length_cons, List.map_cons, Prod.mk.injEq,
        Nat.succ.injEq, List.cons_eq_cons] at h
      have hss : matShape ss = matShape rs := by
        simp [matShape, h.1, h.2.2]
      have hrec := ih ss hss
      simp only [matShape, Prod.mk.injEq] at hrec
      simp only [addMat, List.zipWith_cons_cons, matShape, List.length_cons,
        List.map_cons, Prod.mk.injEq, Nat.succ.injEq, List.cons_eq_cons]
      refine ⟨hrec.1, ?_, hrec.2⟩
      simp [List.length_zipWith, h.2.1]

/-- Element-wise summation of same-shape arrays adds row sums pointwise. -/
lemma rowSums_addMat :
    ∀ a b : List (List ℚ), matShape b = matShape a →
      (addMat a b).map List.sum =
        List.zipWith (· + ·) (a.map List.sum) (b.map List.sum) := by
  intro a
  induction a with
  | nil =>
    intro b h
    cases b <;> rfl
  | cons r rs ih =>
    intro b h
    cases b with
    | nil => simp [matShape] at h
    | cons s ss =>
      simp only [matShape, List.length_cons, List.map_cons, Prod.mk.injEq,
        Nat.succ.injEq, List.cons_eq_cons] at h
      have hss : matShape ss = matShape rs := by
        simp [matShape, h.1, h.2.2]
      simp only [addMat, List.zipWith_cons_cons, List.map_cons]
      rw [sum_zipWith_add r s h.2.1.symm]
      exact List.cons_eq_cons.2 ⟨rfl, ih ss hss⟩

/-- Invariant of the summation fold inside `aggregate`: folding same-shape
row-stochastic arrays onto an accumulator with constant row sums keeps the
shape and adds 1 to the constant per array folded in. -/
lemma foldl_addMat_sums :
    ∀ (rest : List (List (List ℚ))) (acc : List (List ℚ)) (s : ℚ),
      (∀ b ∈ rest, matShape b = matShape acc) →
      (∀ b ∈ rest, rowStochastic b) →
      acc.map List.sum = List.replicate acc.length s →
      matShape (rest.foldl addMat acc) = matShape acc ∧
        (rest.foldl addMat acc).map List.sum =
          List.replicate acc.length (s + rest.length) := by
  intro rest
  induction rest with
  | nil =>
    intro acc s _ _ hsum
    refine ⟨rfl, ?_⟩
    simpa using hsum
  | cons b bs ih =>
    intro acc s hsh hst hsum
    have hb : matShape b = matShape acc := hsh b (List.mem_cons_self b bs)
    have hlen : b.length = acc.length := by
      have := congrArg Prod.fst hb
      simpa [matShape] using this
    have hacc1 : matShape (addMat acc b) = matShape acc :=
      matShape_addMat acc b hb
    have hlen1 : (addMat acc b).length = acc.length := by
      have := congrArg Prod.fst hacc1
      simpa [matShape] using this
    have hsum1 : (addMat acc b).map List.sum =
        List.replicate (addMat acc b).length (s + 1) := by
      rw [rowSums_addMat acc b hb, hsum,
        rowStochastic_sums (hst b (List.mem_cons_self b bs)), hlen, hlen1,
        zipWith_add_replicate]
    have hrec := ih (addMat acc b) (s + 1)
      (fun c hc => (hsh c (List.mem_cons_of_mem b hc)).trans hacc1.symm)
      (fun c hc => hst c (List.mem_cons_of_mem b hc)) hsum1
    simp only [List.foldl_cons]
    refine ⟨hrec.1.trans hacc1, ?_⟩
    rw [hrec.2, hlen1]
    congr 1
    simp only [List.length_cons]
    push_cast
    ring

/-- C8: on a non-empty collection of probability arrays that all share one
shape and are each row-stochastic, `aggregate` succeeds with their
element-wise mean, which is again row-stochastic; and whenever two
collected arrays have mismatched shapes, `aggregate` fails with the
shape-mismatch condition. -/
theorem c8_aggregate_stochastic_mean (arrays : List (List (List ℚ))) :
    (arrays ≠ [] →
      (∀ m₁ ∈ arrays, ∀ m₂ ∈ arrays, matShape m₁ = matShape m₂) →
      (∀ m ∈ arrays, rowStochastic m) →
      ∃ out, aggregate arrays = .ok out ∧ rowStochastic out) ∧
    ((∃ m₁ ∈ arrays, ∃ m₂ ∈ arrays, matShape m₁ ≠ matShape m₂) →
      ∃ msg, aggregate arrays = .error (.valueError msg)) := by
  constructor
  · intro hne hsh hst
    cases arrays with
    | nil => exact absurd rfl hne
    | cons a rest =>
      have hsha : ∀ b ∈ rest, matShape b = matShape a := fun b hb =>
        hsh b (List.mem_cons_of_mem a hb) a (List.mem_cons_self a rest)
      have hcond : rest.all (fun b => decide (matShape b = matShape a)) = true :=
        List.all_eq_true.2 (fun b hb => decide_eq_true (hsha b hb))
      have hfold := foldl_addMat_sums rest a 1 hsha
        (fun b hb => hst b (List.mem_cons_of_mem a hb))
        (rowStochastic_sums (hst a (List.mem_cons_self a rest)))
      refine ⟨scaleMat (1 / ((rest.length + 1 : ℕ) : ℚ)) (rest.foldl addMat a),
        ?_, ?_⟩
      · simp only [aggregate, hcond, if_true]
      · intro row hrow
        obtain ⟨trow, htrow, rfl⟩ := List.mem_map.1 hrow
        rw [sum_map_mul]
        have hts : trow.sum = 1 + rest.length := by
          have hmem : trow.sum ∈ (rest.foldl addMat a).map List.sum :=
            List.mem_map_of_mem List.sum htrow
          rw [hfold.2] at hmem
          exact List.eq_of_mem_replicate hmem
        rw [hts]
        have hk : ((rest.length + 1 : ℕ) : ℚ) ≠ 0 :=
          Nat.cast_ne_zero.2 (Nat.succ_ne_zero rest.length)
        field_simp
        ring
  · rintro ⟨m₁, h₁, m₂, h₂, hdiff⟩
    cases arrays with
    | nil => exact absurd h₁ (List.not_mem_nil m₁)
    | cons a rest =>
      have hcond :
          ¬ rest.all (fun b => decide (matShape b = matShape a)) = true := by
        intro hall
        have hall2 := List.all_eq_true.1 hall
        have heq : ∀ m ∈ a :: rest, matShape m = matShape a := by
          intro m hm
          rcases List.mem_cons.1 hm with h | h
          · rw [h]
          · exact of_decide_eq_true (hall2 m h)
        exact hdiff ((heq m₁ h₁).trans (heq m₂ h₂).symm)
      refine ⟨"probability arrays have mismatched shapes", ?_⟩
      simp only [aggregate, hcond]
      rfl

/-- Witness for C8 at concrete arrays: the mean of two row-stochastic 2-by-2
arrays succeeds and is row-stochastic; aggregating a 2-row array with a
1-row array fails with the shape-mismatch condition. -/
theorem c8_aggregate_stochastic_mean_witness :
    (∃ out,
      aggregate [[[1/2, 1/2], [1, 0]], [[0, 1], [1/4, 3/4]]] = .ok out ∧
        rowStochastic out) ∧
    (∃ msg,
      aggregate [[[1/2, 1/2], [1, 0]], [[1, 0]]] =
        .error (.valueError msg)) :=
  ⟨(c8_aggregate_stochastic_mean [[[1/2, 1/2], [1, 0]], [[0, 1], [1/4, 3/4]]]).1
      (List.cons_ne_nil _ _)
      (by intro m₁ h₁ m₂ h₂; fin_cases h₁ <;> fin_cases h₂ <;> rfl)
      (by
        intro m hm
        fin_cases hm <;>
          · intro row hrow
            fin_cases hrow <;> norm_num [List.sum_cons, List.sum_nil]),
   (c8_aggregate_stochastic_mean [[[1/2, 1/2], [1, 0]], [[1, 0]]]).2
      ⟨[[1/2, 1/2], [1, 0]], List.mem_cons_self _ _, [[1, 0]],
        List.mem_cons_of_mem _ (List.mem_cons_self _ _),
        by simp [matShape]⟩⟩

/-- C4: calling `predict` or `predict_proba` on an estimator that was never
fitted does fail — but with `TypeError` (the `self._predict(X)` call is
missing the required positional `model` argument of `_predict`), not with
the not-fitted condition the unreachable `check_is_fitted` guard (embedded
as `checkIsFitted`) would have raised for the unfitted state. -/
theorem c4_predict_before_fit_wrong_error :
    predict ⟨100, 1000, 100, none, 5, 1/10000⟩ ⟨none⟩ =
        .error (.typeError
          "private predict missing 1 required positional argument: model") ∧
      predict_proba ⟨100, 1000, 100, none, 5, 1/10000⟩ ⟨none⟩ =
        .error (.typeError
          "private predict missing 1 required positional argument: model") ∧
      (PyError.typeError
        "private predict missing 1 required positional argument: model").isNotFitted
          = false ∧
      checkIsFitted ⟨none⟩ =
        .error (.notFittedError
          "this EnsembleTabPFN instance is not fitted yet") :=
  ⟨rfl, rfl, rfl, rfl⟩

/-- C5: the predict loop never visits any retained Ensemble Member: even on
a fitted estimator with one retained member, the body of `_predict` raises
`AttributeError` on its first statement (reading the never-assigned
`self.n_ensemble_configurations`), before the member loop — whose header
`for itr in self.max_iters` iterates over an int, not the member list —
could run, so no (member, feature group) probability array is collected. -/
theorem c5_predict_loop_unreachable :
    privPredict ⟨100, 1000, 100, none, 5, 1/10000⟩
        ⟨some [⟨[0, 1, 1], ⟨[[0], [1]]⟩⟩]⟩ =
      .error (.attributeError
        "EnsembleTabPFN object has no attribute n_ensemble_configurations") :=
  rfl
